import Mathlib

/-!
Verification of the connection-lifecycle manager and command-dispatch engine
of the instagram_mqtt realtime bot.

The definitions below are a shallow embedding of the JavaScript source:

* `InstagramRealtimeBot` (src/core/realtime-bot.js): connection state flags,
  fallback polling, reconnection backoff, the poll-mode dedup watermark
  (`isNewMessage`), the outbound operations (`sendMessage`, `sendReaction`,
  `markAsSeen`, `indicateTyping`) and `disconnect`.
* `MessageHandler` (the variant with the unknown-command / admin / rate-limit
  gates): `handleCommand`, `isAdmin`, the `isRateLimited` stub.
* `RateLimiter.isLimited` (utils): the sliding-window counter.

Machine integers are modelled as `Nat` (timestamps in milliseconds) or `Int`
where the source can go negative; fallible asynchronous calls are modelled by
an explicit `Except String Unit` argument giving the call's outcome, and the
surrounding try/catch by pattern matching on it.  Timers are modelled by a
`timerActive` flag: a polling tick can only occur while the interval timer is
active.  Scheduled callbacks (`setTimeout`) are executed sequentially, which
matches the single-threaded cooperative scheduling of the source.
-/

set_option autoImplicit false

/-- Connection state of `InstagramRealtimeBot` (constructor, lines 17-23):
`isRealtimeConnected`, `isPolling`, `reconnectAttempts`,
`maxReconnectAttempts`, `pollingInterval` (modelled by `timerActive`).
`connectsScheduled` counts how many deferred `connectRealtime` retries
`handleReconnection` has scheduled (a transition towards `Connecting`), and
`lastDelay` records the delay passed to the last scheduled retry. -/
structure BotState where
  isRealtimeConnected : Bool
  isPolling : Bool
  timerActive : Bool
  reconnectAttempts : Nat
  maxReconnectAttempts : Nat
  connectsScheduled : Nat
  lastDelay : Option Nat
deriving DecidableEq, Repr

/-- The state right after the constructor runs: everything off,
`maxReconnectAttempts = 3`. -/
def initialState : BotState :=
  { isRealtimeConnected := false
    isPolling := false
    timerActive := false
    reconnectAttempts := 0
    maxReconnectAttempts := 3
    connectsScheduled := 0
    lastDelay := none }

/-- The `PushConnected` state of the spec: `connectRealtime` succeeded
(`isRealtimeConnected = true`, `reconnectAttempts = 0`). -/
def pushConnectedState : BotState :=
  { initialState with isRealtimeConnected := true }

/-- `startFallbackPolling` (realtime-bot.js lines 216-254): early-returns if
`isPolling` is already set; otherwise sets `isPolling`, clears
`isRealtimeConnected` and installs the 45 s interval timer. -/
def startFallbackPolling (s : BotState) : BotState :=
  if s.isPolling then s
  else { s with isPolling := true, isRealtimeConnected := false, timerActive := true }

/-- The rate-limit branch of the polling tick handler (lines 239-248): on an
error whose message contains a 403/429 signature the code runs
`clearInterval(this.pollingInterval)`, leaving `isPolling` untouched. -/
def rateLimitTickError (s : BotState) : BotState :=
  { s with timerActive := false }

/-- The `setTimeout` callback scheduled 120 000 ms after a rate-limit error
(lines 243-247): `if (this.isPolling) this.startFallbackPolling()`. -/
def rateLimitCooldownFire (s : BotState) : BotState :=
  if s.isPolling then startFallbackPolling s else s

/-- The backoff delay of `handleReconnection` (line 386), as a function of the
post-increment attempt counter:
`Math.min(4000 * Math.pow(2, attempts), 60000)`. -/
def backoffDelay (attempts : Nat) : Nat :=
  min (4000 * 2 ^ attempts) 60000

/-- One call of `handleReconnection` (lines 377-398), up to and including the
scheduling of the deferred `connectRealtime` retry: if the attempt counter has
reached the maximum, switch to fallback polling; otherwise increment the
counter and schedule one retry with the backoff delay. -/
def handleReconnectionOnce (s : BotState) : BotState :=
  if s.maxReconnectAttempts ≤ s.reconnectAttempts then
    startFallbackPolling s
  else
    { s with
      reconnectAttempts := s.reconnectAttempts + 1
      connectsScheduled := s.connectsScheduled + 1
      lastDelay := some (backoffDelay (s.reconnectAttempts + 1)) }

/-- `handleReconnection` under the assumption that every scheduled
`connectRealtime` retry fails at the `realtime.connect` stage.  A failing
`connectRealtime` (lines 104-108) calls `handleReconnection` from its catch
block and rethrows; the rethrown error is then caught by the `setTimeout`
callback of `handleReconnection` (lines 390-397), which calls
`handleReconnection` once more.  `fuel` bounds the recursion depth; any
`fuel > maxReconnectAttempts - reconnectAttempts` is enough, because each
round strictly increases the attempt counter until the polling branch is
taken. -/
def handleReconnectionFail : Nat → BotState → BotState
  | 0, s => s
  | Nat.succ fuel, s =>
    if s.maxReconnectAttempts ≤ s.reconnectAttempts then
      startFallbackPolling s
    else
      let s1 := handleReconnectionOnce s
      handleReconnectionFail fuel (handleReconnectionFail fuel s1)

/-- A push `error` event (lines 142-146) in a session where every reconnect
attempt fails: the listener clears `isRealtimeConnected` and calls
`handleReconnection`. -/
def errorEventAllReconnectsFail (s : BotState) : BotState :=
  handleReconnectionFail (s.maxReconnectAttempts + 2)
    { s with isRealtimeConnected := false }

/-- The state reached from `PushConnected` after three consecutive push
`error` events, each of whose scheduled reconnects fails. -/
def afterThreeErrors : BotState :=
  errorEventAllReconnectsFail
    (errorEventAllReconnectsFail (errorEventAllReconnectsFail pushConnectedState))

/-- Result of `disconnect` (lines 466-491): the connection flags after the
method returns, whether `sessionManager.saveCookiesToDb()` was reached and
whether `moduleManager.cleanup()` was reached. -/
structure DisconnectOutcome where
  isPolling : Bool
  isRealtimeConnected : Bool
  timerActive : Bool
  cookiesSaved : Bool
  cleanupRan : Bool
deriving DecidableEq, Repr

/-- `disconnect` (lines 466-491).  The whole body is one try/catch with no
finally: the timer is cleared and both flags are reset first; then
`this.ig.realtime.disconnect()` runs, and only if it does not throw does
control reach `saveCookiesToDb()` and `cleanup()`.  If the close throws, the
catch block just logs and the method returns. -/
def disconnect (timerWasActive : Bool) (closeThrows : Bool) : DisconnectOutcome :=
  let timerNowActive := timerWasActive && false
  if closeThrows then
    { isPolling := false
      isRealtimeConnected := false
      timerActive := timerNowActive
      cookiesSaved := false
      cleanupRan := false }
  else
    { isPolling := false
      isRealtimeConnected := false
      timerActive := timerNowActive
      cookiesSaved := true
      cleanupRan := true }

/-- Which transport an outbound operation used. -/
inductive Dispatch where
  | push
  | direct
deriving DecidableEq, Repr

/-- Whether a modelled asynchronous call succeeded. -/
def succeeded (r : Except String Unit) : Bool :=
  match r with
  | Except.ok _ => true
  | Except.error _ => false

/-- `sendMessage` (lines 400-417): sends over the realtime (push) channel when
`isRealtimeConnected`, otherwise falls back to
`entity.directThread(...).broadcastText` (the direct request API); the
try/catch converts the outcome into a boolean.  Returns the boolean together
with the transport that was attempted. -/
def sendMessage (isRealtimeConnected : Bool) (opResult : Except String Unit) :
    Bool × Option Dispatch :=
  if isRealtimeConnected then
    (succeeded opResult, some Dispatch.push)
  else
    (succeeded opResult, some Dispatch.direct)

/-- `sendReaction` (lines 419-434): sends over the push channel only when
`isRealtimeConnected`; when not connected the body is skipped entirely and the
method still returns `true`.  There is no direct-API fallback. -/
def sendReaction (isRealtimeConnected : Bool) (opResult : Except String Unit) :
    Bool × Option Dispatch :=
  if isRealtimeConnected then
    (succeeded opResult, some Dispatch.push)
  else
    (true, none)

/-- `markAsSeen` (lines 436-449): same shape as `sendReaction` — push channel
only, no direct-API fallback, `true` when not connected. -/
def markAsSeen (isRealtimeConnected : Bool) (opResult : Except String Unit) :
    Bool × Option Dispatch :=
  if isRealtimeConnected then
    (succeeded opResult, some Dispatch.push)
  else
    (true, none)

/-- `indicateTyping` (lines 451-464): same shape as `sendReaction` — push
channel only, no direct-API fallback, `true` when not connected. -/
def indicateTyping (isRealtimeConnected : Bool) (opResult : Except String Unit) :
    Bool × Option Dispatch :=
  if isRealtimeConnected then
    (succeeded opResult, some Dispatch.push)
  else
    (true, none)

/-- A message row as seen by the polling path: the fields `user_id`,
`timestamp` (already converted to the watermark's time unit, as in
`new Date(message.timestamp / 1000)`) and `thread_id` that the dedup and
dispatch logic reads. -/
structure PollMsg where
  userId : Nat
  timestampMs : Nat
  threadId : Nat
deriving DecidableEq, Repr

/-- `isNewMessage` (lines 293-302): compares the message time against the
watermark `lastMessageCheck`; on a strictly newer time it advances the
watermark.  Returns the boolean together with the updated watermark. -/
def isNewMessage (lastMessageCheck : Nat) (m : PollMsg) : Bool × Nat :=
  if lastMessageCheck < m.timestampMs then (true, m.timestampMs)
  else (false, lastMessageCheck)

/-- `handlePollingMessage` (lines 304-334): skips the bot's own messages
(`user_id == cookieUserId`), otherwise hands the message to
`messageHandler.handleMessage`; the dispatched list records those calls. -/
def handlePollingMessage (selfId : Nat) (dispatched : List PollMsg) (m : PollMsg) :
    List PollMsg :=
  if m.userId == selfId then dispatched else dispatched ++ [m]

/-- `checkThreadMessages` (lines 274-291) on the polling state
`(lastMessageCheck, dispatched)`: fetch the thread's latest message (`none`
when the thread has no messages); if `isNewMessage` holds (this advances the
watermark), run `handlePollingMessage`. -/
def checkThreadMessages (selfId : Nat) (st : Nat × List PollMsg)
    (latest : Option PollMsg) : Nat × List PollMsg :=
  match latest with
  | none => st
  | some m =>
    let r := isNewMessage st.1 m
    if r.1 then (r.2, handlePollingMessage selfId st.2 m)
    else (r.2, st.2)

/-- `checkForNewMessages` (lines 256-272): one polling tick processes the
first three inbox threads in order (`inbox.slice(0, 3)`), running
`checkThreadMessages` on each against the single shared watermark. -/
def checkForNewMessages (selfId : Nat) (st : Nat × List PollMsg)
    (inbox : List (Option PollMsg)) : Nat × List PollMsg :=
  (inbox.take 3).foldl (checkThreadMessages selfId) st

/-- A normalized inbound message, restricted to the fields `handleCommand`
reads. -/
structure Msg where
  text : String
  senderUsername : String
  threadId : String
  itemId : String
deriving DecidableEq, Repr

/-- A registered command, restricted to the fields the dispatch gates read. -/
structure Command where
  adminOnly : Bool
deriving DecidableEq, Repr

/-- The configuration fields the dispatcher reads (config.js): the admin list
is built lower-cased (`split(',').map(u => u.trim().toLowerCase())`). -/
structure BotConfig where
  adminUsers : List String
  respondToUnknownCommands : Bool
deriving DecidableEq, Repr

/-- JavaScript `String.prototype.split` with a single-character separator: the
string is cut at every occurrence of the separator, keeping empty fields, and
splitting the empty string yields `[""]`. -/
def jsSplit (sep : Char) : List Char → List (List Char)
  | [] => [[]]
  | c :: cs =>
    let rest := jsSplit sep cs
    if c == sep then [] :: rest
    else (c :: rest.headD []) :: rest.tail

/-- JavaScript `String.prototype.trim`: strip leading and trailing
whitespace. -/
def jsTrim (cs : List Char) : List Char :=
  ((cs.dropWhile Char.isWhitespace).reverse.dropWhile Char.isWhitespace).reverse

/-- JavaScript `String.prototype.toLowerCase`, restricted to the ASCII range
that admin handles use. -/
def jsToLower (s : String) : String :=
  String.mk (s.data.map Char.toLower)

/-- Command-text parsing in `handleCommand` (config.js variant, lines
118-120): `message.text.slice(1).trim()` then
`const [commandName, ...args] = commandText.split(' ')`.  `split(' ')` splits
at every single space character, keeping empty fields, and returns `[""]` on
the empty string, so the destructuring never fails. -/
def parseCommand (text : String) : String × List String :=
  let commandText := jsTrim (text.data.drop 1)
  let parts := (jsSplit ' ' commandText).map String.mk
  (parts.headD "", parts.tail)

/-- `isAdmin` (config.js variant, lines 187-191):
`config.admin.users.includes(username.toLowerCase())`. -/
def isAdmin (cfg : BotConfig) (username : String) : Bool :=
  cfg.adminUsers.contains (jsToLower username)

/-- `MessageHandler.isRateLimited` (config.js variant, lines 180-185): the
body is a stub — "For now, return false (no rate limiting)". -/
def isRateLimited (_username _commandName : String) : Bool :=
  false

/-- Outcome of one `handleCommand` call: whether the command's handler was
invoked, the `args` it received, and the replies sent (thread id, text). -/
structure CmdOutcome where
  handlerInvoked : Bool
  argsPassed : Option (List String)
  replies : List (String × String)
deriving DecidableEq, Repr

/-- `handleCommand` (config.js variant, lines 118-178): parse, look the
command up, then the unknown-command, admin and rate-limit gates in that
order; if all pass, invoke the handler (whose outcome is the `handlerResult`
argument), and on a handler exception send the generic error reply. -/
def handleCommand (cfg : BotConfig) (getCommand : String → Option Command)
    (msg : Msg) (handlerResult : Except String Unit) : CmdOutcome :=
  let parsed := parseCommand msg.text
  let commandName := parsed.1
  let args := parsed.2
  match getCommand commandName with
  | none =>
    if cfg.respondToUnknownCommands then
      { handlerInvoked := false
        argsPassed := none
        replies := [(msg.threadId,
          "❌ Unknown command: ." ++ commandName ++ "\nType .help for available commands")] }
    else
      { handlerInvoked := false, argsPassed := none, replies := [] }
  | some command =>
    if command.adminOnly && !(isAdmin cfg msg.senderUsername) then
      { handlerInvoked := false
        argsPassed := none
        replies := [(msg.threadId, "❌ Admin access required")] }
    else if isRateLimited msg.senderUsername commandName then
      { handlerInvoked := false
        argsPassed := none
        replies := [(msg.threadId, "⏰ Please wait before using this command again")] }
    else
      match handlerResult with
      | Except.ok _ =>
        { handlerInvoked := true, argsPassed := some args, replies := [] }
      | Except.error e =>
        { handlerInvoked := true
          argsPassed := some args
          replies := [(msg.threadId, "❌ Command error: " ++ e)] }

/-- `RateLimiter.isLimited` (utils, lines 60-81) for one key: purge the
timestamps at or before `now - windowMs`, refuse without recording when
already at capacity, else record `now`.  Times are `Int` to mirror the
unchecked JavaScript subtraction `now - windowMs`. -/
def RateLimiter.isLimited (now : Int) (maxRequests : Nat) (windowMs : Int)
    (requests : List Int) : Bool × List Int :=
  let windowStart := now - windowMs
  let validRequests := requests.filter (fun time => windowStart < time)
  if maxRequests ≤ validRequests.length then (true, validRequests)
  else (false, validRequests ++ [now])

/-- Feed a list of request times through `RateLimiter.isLimited` for one key,
collecting each call's verdict. -/
def RateLimiter.run (maxRequests : Nat) (windowMs : Int) (times : List Int) :
    List Bool × List Int :=
  times.foldl
    (fun acc now =>
      let r := RateLimiter.isLimited now maxRequests windowMs acc.2
      (acc.1 ++ [r.1], r.2))
    ([], [])

/-- Fixture: a dispatcher configuration with one lower-cased admin handle and
the unknown-command response enabled (the config.js defaults). -/
def dispatchCfg : BotConfig :=
  { adminUsers := ["boss"], respondToUnknownCommands := true }

/-- Fixture: a registry holding the non-admin `ping` command and the
admin-only `status` command of the core module. -/
def coreRegistry : String → Option Command :=
  fun name =>
    if name = "ping" then some { adminOnly := false }
    else if name = "status" then some { adminOnly := true }
    else none

/-- Fixture: the non-admin sender `alice` invoking `.ping`. -/
def alicePing : Msg :=
  { text := ".ping", senderUsername := "alice", threadId := "thread1", itemId := "item1" }

/-- Fixture: the non-admin sender `Alice` invoking the admin-only
`.status`. -/
def aliceStatus : Msg :=
  { text := ".status", senderUsername := "Alice", threadId := "thread1", itemId := "item2" }

/-- C1: the claim says that after a rate-limit error signature (message
containing 403 or 429) during a polling tick, the loop pauses and some later
tick occurs once the 120 000 ms cooldown elapses.  In the code the cooldown
callback runs `if (this.isPolling) this.startFallbackPolling()`, but
`isPolling` was never cleared, so `startFallbackPolling`'s early return fires
and the interval timer is never reinstalled: after the cooldown the state has
`isPolling = true` yet `timerActive = false`, so no later tick can ever
occur. -/
theorem rateLimitCooldownNeverResumes :
    rateLimitCooldownFire (rateLimitTickError (startFallbackPolling initialState)) =
      { initialState with isPolling := true, timerActive := false } := by
  decide

/-- C2: starting from `PushConnected` with `reconnectAttempts = 0` and
`maxReconnectAttempts = 3`, after three consecutive push `error` events (each
of whose scheduled reconnects fails) the state is `Polling`
(`isPolling = true`, `isRealtimeConnected = false`) with
`reconnectAttempts = 3`, and it is a fixpoint of further error events: in
particular no further reconnect (`Connecting` transition) is ever scheduled
without an external trigger. -/
theorem threeErrorEventsEndInPolling :
    afterThreeErrors.isPolling = true ∧
    afterThreeErrors.isRealtimeConnected = false ∧
    afterThreeErrors.reconnectAttempts = 3 ∧
    errorEventAllReconnectsFail afterThreeErrors = afterThreeErrors := by
  decide

/-- C3: the claim says the (N+1)th dispatch of a command by a sender inside
the rate-limit window skips the handler and sends one please-wait reply.  The
shipped `MessageHandler.isRateLimited` is a stub that always returns `false`,
so every dispatch — in particular the (N+1)th — still invokes the handler and
never sends the please-wait reply; the sliding-window `RateLimiter.isLimited`
utility does implement the claimed behaviour (sixth call with threshold 5 is
refused) but is never wired into `handleCommand`. -/
theorem rateLimitGateStubNeverBlocks :
    (∀ u c, isRateLimited u c = false) ∧
    (handleCommand dispatchCfg coreRegistry alicePing (Except.ok ())).handlerInvoked
      = true ∧
    (handleCommand dispatchCfg coreRegistry alicePing (Except.ok ())).replies = [] ∧
    (RateLimiter.run 5 60000
        [1000000, 1001000, 1002000, 1003000, 1004000, 1005000]).1 =
      [false, false, false, false, false, true] := by
  refine ⟨fun u c => rfl, ?_, ?_, ?_⟩ <;> decide

/-- C4 counterexample: the claim says `disconnect()` always attempts the
cookie save even when the push-channel close throws.  The body is a single
try/catch with no finally, so a throwing `realtime.disconnect()` jumps over
`saveCookiesToDb()`: with a running timer and a failing close, no cookie save
is attempted. -/
theorem disconnectCloseFailureSkipsCookieSave :
    (disconnect true true).cookiesSaved = false := by
  decide

/-- C4 as amended: `disconnect()` stops the polling timer and leaves the
state disconnected (`isPolling = false`, `isRealtimeConnected = false`) in
all cases, and attempts session persistence (and module cleanup) exactly when
the push-channel close does not throw; when the close throws, the error is
caught and logged and the cookie save is skipped. -/
theorem disconnectStopsTimerSavesWhenCloseSucceeds :
    ∀ timerWasActive closeThrows : Bool,
      (disconnect timerWasActive closeThrows).timerActive = false ∧
      (disconnect timerWasActive closeThrows).isPolling = false ∧
      (disconnect timerWasActive closeThrows).isRealtimeConnected = false ∧
      (disconnect timerWasActive false).cookiesSaved = true ∧
      (disconnect timerWasActive false).cleanupRan = true ∧
      (disconnect timerWasActive true).cookiesSaved = false := by
  decide

/-- C5 counterexample: the claim says each of the four outbound operations
falls back to the direct (non-push) request API when push is not connected.
`sendReaction` with push disconnected performs no dispatch at all (it skips
the body and returns `true`), rather than dispatching via the direct API. -/
theorem sendReactionHasNoDirectFallback :
    (sendReaction false (Except.ok ())).2 = none ∧
    (none : Option Dispatch) ≠ some Dispatch.direct := by
  decide

/-- C5 as amended: every outbound operation returns a success boolean and
never propagates an exception (each is a total function of the attempted
call's outcome); `sendMessage` dispatches via push when connected and via the
direct request API otherwise, but `sendReaction`, `markAsSeen` and
`indicateTyping` dispatch only via push — when push is not connected they
perform no dispatch and still return `true`. -/
theorem outboundOpsBestEffort :
    ∀ (connected : Bool) (r : Except String Unit),
      sendMessage connected r =
        (succeeded r, some (if connected then Dispatch.push else Dispatch.direct)) ∧
      sendReaction true r = (succeeded r, some Dispatch.push) ∧
      sendReaction false r = (true, none) ∧
      markAsSeen true r = (succeeded r, some Dispatch.push) ∧
      markAsSeen false r = (true, none) ∧
      indicateTyping true r = (succeeded r, some Dispatch.push) ∧
      indicateTyping false r = (true, none) := by
  intro connected r
  cases connected <;>
    simp [sendMessage, sendReaction, markAsSeen, indicateTyping]

/-- C6: the poll-mode dedup watermark advances only on a strictly newer
message time (`messageTime > lastMessageCheck`; otherwise `isNewMessage`
leaves the watermark unchanged and reports the message as not new), and hence
two consecutive polling checks that observe the same latest message for a
thread dispatch it to the message handler at most once: the second check adds
nothing to the dispatched list. -/
theorem watermarkDedupNoDoubleDispatch :
    (∀ (w : Nat) (m : PollMsg), ¬ w < m.timestampMs → isNewMessage w m = (false, w)) ∧
    (∀ (selfId : Nat) (st : Nat × List PollMsg) (m : PollMsg),
      (checkThreadMessages selfId (checkThreadMessages selfId st (some m)) (some m)).2 =
        (checkThreadMessages selfId st (some m)).2) := by
  constructor
  · intro w m h
    simp [isNewMessage, h]
  · intro selfId st m
    rcases st with ⟨w, ds⟩
    by_cases h : w < m.timestampMs
    · simp [checkThreadMessages, isNewMessage, h]
    · simp [checkThreadMessages, isNewMessage, h]

/-- Witness for C6: at watermark 5, a message with the same timestamp 5 is
not new and does not advance the watermark. -/
theorem watermarkDedupWitness :
    ¬ (5 : Nat) < 5 ∧ isNewMessage 5 ⟨1, 5, 0⟩ = (false, 5) :=
  ⟨by decide, watermarkDedupNoDoubleDispatch.1 5 ⟨1, 5, 0⟩ (by decide)⟩

/-- C7 counterexample: the claim says that for any amount of whitespace
between tokens, `.react 🔥` parses to `commandName = "react"` with
`args = ["🔥"]`.  With two spaces between the tokens, `split(' ')` keeps the
empty field, so the args are `["", "🔥"]`, not `["🔥"]`. -/
theorem parseDoubleSpaceCounterexample :
    parseCommand ".react  🔥" ≠ ("react", ["🔥"]) := by
  decide

/-- C7 as amended: parsing strips the leading trigger character, trims the
remainder, and splits on every single space character (not on runs of
whitespace): `commandName` is the first field and `args` the remaining
fields, which include an empty string for each extra consecutive space.  With
exactly one space, `.react 🔥` parses to `("react", ["🔥"])`. -/
theorem parseSplitsOnEachSingleSpace :
    parseCommand ".react 🔥" = ("react", ["🔥"]) ∧
    parseCommand ".react  🔥" = ("react", ["", "🔥"]) ∧
    parseCommand ".help me now" = ("help", ["me", "now"]) ∧
    parseCommand ".ping" = ("ping", []) := by
  decide

/-- C8: for a registered admin-only command and a sender whose lower-cased
handle is not in the configured (lower-cased) admin set, `handleCommand`
never invokes the handler and sends exactly one fixed admin-denial reply to
the message's thread. -/
theorem adminGateBlocksNonAdmin
    (cfg : BotConfig) (getCommand : String → Option Command) (msg : Msg)
    (cmd : Command) (hres : Except String Unit)
    (hreg : getCommand (parseCommand msg.text).1 = some cmd)
    (hadmin : cmd.adminOnly = true)
    (hnot : cfg.adminUsers.contains (jsToLower msg.senderUsername) = false) :
    handleCommand cfg getCommand msg hres =
      { handlerInvoked := false
        argsPassed := none
        replies := [(msg.threadId, "❌ Admin access required")] } := by
  have hmem : jsToLower msg.senderUsername ∉ cfg.adminUsers := by
    simpa using hnot
  simp [handleCommand, isAdmin, hreg, hadmin, hmem]

/-- Witness for C8: the non-admin sender `Alice` (admin set `["boss"]`)
invoking the admin-only `.status` gets exactly the denial reply and the
handler is not invoked. -/
theorem adminGateWitness :
    coreRegistry (parseCommand aliceStatus.text).1 = some { adminOnly := true } ∧
    dispatchCfg.adminUsers.contains (jsToLower aliceStatus.senderUsername) = false ∧
    handleCommand dispatchCfg coreRegistry aliceStatus (Except.ok ()) =
      { handlerInvoked := false
        argsPassed := none
        replies := [("thread1", "❌ Admin access required")] } :=
  ⟨by decide, by decide,
    adminGateBlocksNonAdmin dispatchCfg coreRegistry aliceStatus { adminOnly := true }
      (Except.ok ()) (by decide) rfl (by decide)⟩

/-- C9: the reconnection backoff delay is `min(4000 * 2^attempt, 60000)` for
every attempt number, is monotonically non-decreasing in the attempt number
and never exceeds 60 000 ms; and each `handleReconnection` call that
schedules a retry (attempt counter below the maximum) increments the counter
by exactly one and schedules exactly one deferred retry with that delay. -/
theorem backoffDelayMonotoneCapped :
    (∀ a : Nat, backoffDelay a = min (4000 * 2 ^ a) 60000) ∧
    (∀ a b : Nat, a ≤ b → backoffDelay a ≤ backoffDelay b) ∧
    (∀ a : Nat, backoffDelay a ≤ 60000) ∧
    (∀ s : BotState, s.reconnectAttempts < s.maxReconnectAttempts →
      (handleReconnectionOnce s).reconnectAttempts = s.reconnectAttempts + 1 ∧
      (handleReconnectionOnce s).lastDelay =
        some (backoffDelay (s.reconnectAttempts + 1)) ∧
      (handleReconnectionOnce s).connectsScheduled = s.connectsScheduled + 1) := by
  refine ⟨fun a => rfl, ?_, ?_, ?_⟩
  · intro a b h
    exact min_le_min
      (Nat.mul_le_mul_left _ (Nat.pow_le_pow_right (by norm_num) h)) le_rfl
  · intro a
    exact min_le_right _ _
  · intro s h
    have hlt : ¬ s.maxReconnectAttempts ≤ s.reconnectAttempts := Nat.not_le.mpr h
    simp [handleReconnectionOnce, hlt]

/-- Witness for C9: the monotonicity, cap and increment facts at concrete
inputs (attempts 2 ≤ 3, attempt 10, and the fresh `PushConnected` state). -/
theorem backoffDelayWitness :
    ((2 : Nat) ≤ 3 ∧ backoffDelay 2 ≤ backoffDelay 3) ∧
    backoffDelay 10 ≤ 60000 ∧
    (pushConnectedState.reconnectAttempts < pushConnectedState.maxReconnectAttempts ∧
      (handleReconnectionOnce pushConnectedState).reconnectAttempts =
        pushConnectedState.reconnectAttempts + 1) :=
  ⟨⟨by decide, backoffDelayMonotoneCapped.2.1 2 3 (by decide)⟩,
    backoffDelayMonotoneCapped.2.2.1 10,
    by decide,
    (backoffDelayMonotoneCapped.2.2.2 pushConnectedState (by decide)).1⟩

/-- C10: the dedup watermark is one global timestamp shared by all threads.
Within one polling tick that visits thread A's latest message (strictly newer
than the watermark) and then thread B's latest message (older than or equal
to A's), the watermark ends at A's timestamp and B's message is never
dispatched — the dispatched list after both threads equals the list after A
alone; and when A's message is the bot's own, it still advances the watermark
to its timestamp while itself being skipped (nothing dispatched). -/
theorem globalWatermarkSharedAcrossThreads
    (selfId w : Nat) (ds : List PollMsg) (mA mB : PollMsg)
    (hA : w < mA.timestampMs) (hB : mB.timestampMs ≤ mA.timestampMs) :
    checkForNewMessages selfId (w, ds) [some mA, some mB] =
      (mA.timestampMs, (checkThreadMessages selfId (w, ds) (some mA)).2) ∧
    (mA.userId = selfId →
      checkForNewMessages selfId (w, ds) [some mA, some mB] =
        (mA.timestampMs, ds)) := by
  have hnB : ¬ mA.timestampMs < mB.timestampMs := Nat.not_lt.mpr hB
  constructor
  · simp [checkForNewMessages, checkThreadMessages, isNewMessage, hA, hnB,
      handlePollingMessage]
  · intro hself
    simp [checkForNewMessages, checkThreadMessages, isNewMessage, hA, hnB,
      handlePollingMessage, hself]

/-- Witness for C10: with self id 7 and watermark 0, the bot's own message at
time 100 in thread 1 advances the global watermark to 100 while being
skipped, and the other user's message at time 100 in thread 2 is never
dispatched in the same tick. -/
theorem globalWatermarkWitness :
    ((0 : Nat) < 100 ∧ (100 : Nat) ≤ 100) ∧
    checkForNewMessages 7 (0, []) [some ⟨7, 100, 1⟩, some ⟨2, 100, 2⟩] = (100, []) :=
  ⟨⟨by decide, by decide⟩,
    (globalWatermarkSharedAcrossThreads 7 0 [] ⟨7, 100, 1⟩ ⟨2, 100, 2⟩
      (by decide) (by decide)).2 rfl⟩
